import Mathlib

/-!
Shallow embedding of the invoice financial-state and payment-application
engine of the `dp_backend` repository.

Money is modelled as `Int`: the source uses fixed-point `Decimal` values with
two decimal places, whose arithmetic (addition, subtraction, comparison) is
exact, so scaling to integers is faithful.  Dates (`fecha_pago.date()`,
`fecha_vencimiento`, `timezone.now().date()`) are modelled as `Int` day
numbers; "now" is passed explicitly as a `today` parameter.

Sources embedded:
* `src/facturas/models.py` — `Factura`: `total_pagado`, `total_descuentos`,
  `total_aplicado`, `saldo_pendiente`, `esta_vencida`, `actualizar_estado`,
  `actualizar_estados_vencidas`.
* `src/pagos/models.py` — `Pago.clean`, `Pago.save`, `Pago.delete`.
* `src/pagos/serializers.py` — `PagoCreateSerializer.validate`.
-/

namespace DP

/-- Invoice status choices (`Factura.ESTADOS`). -/
inductive EstadoFactura
  | pendiente
  | parcial
  | pagada
  | vencida
  | cancelada
  deriving DecidableEq, Repr

/-- Invoice type choices (`Factura.TIPOS_FACTURA`): electronic (`FE`) or remission (`R`). -/
inductive TipoFactura
  | FE
  | R
  deriving DecidableEq, Repr

/-- Payment status choices (`Pago.ESTADOS`). -/
inductive EstadoPago
  | registrado
  | confirmado
  | anulado
  deriving DecidableEq, Repr

/-- A payment row (`Pago`): its primary key, the five amount components,
its payment date, and its state.  Fields not consulted by the financial
engine (comprobante, referencia, cuenta, users, timestamps) are omitted. -/
structure Pago where
  id : Nat
  valor_pagado : Int
  descuento : Int
  ica : Int
  retencion : Int
  nota : Int
  fecha_pago : Int
  estado : EstadoPago
  deriving DecidableEq, Repr

/-- An invoice row (`Factura`) together with its payments (`related_name='pagos'`).
Fields not consulted by the financial engine are omitted. -/
structure Factura where
  valor_total : Int
  fecha_vencimiento : Int
  tipo : TipoFactura
  estado : EstadoFactura
  pagos : List Pago
  deriving DecidableEq, Repr

/-- Total applied by one payment: the five-component sum used by
`Pago.clean` (`total_aplicar_actual`, `aplicado_nuevo`) and by the
serializers' `aplicado` field. -/
def aplicado (p : Pago) : Int :=
  p.valor_pagado + p.descuento + p.ica + p.retencion + p.nota

/-- `estado='confirmado'` test on a payment. -/
def esConfirmado (p : Pago) : Bool :=
  decide (p.estado = EstadoPago.confirmado)

/-- `pagos.filter(estado='confirmado')`. -/
def confirmados (ps : List Pago) : List Pago :=
  ps.filter esConfirmado

/-- Sum of a field over a list of payments (a `Sum(...)` aggregate;
`None`-on-empty coalesced to `0.00` by `or Decimal('0.00')`). -/
def sumBy (g : Pago → Int) (ps : List Pago) : Int :=
  (ps.map g).sum

/-- `Factura.total_pagado`: sum of `valor_pagado` over confirmed payments. -/
def total_pagado (f : Factura) : Int :=
  sumBy (fun p => p.valor_pagado) (confirmados f.pagos)

/-- `Factura.total_descuentos`: per-field sums of the four discount
components over confirmed payments, then added. -/
def total_descuentos (f : Factura) : Int :=
  sumBy (fun p => p.descuento) (confirmados f.pagos)
    + sumBy (fun p => p.ica) (confirmados f.pagos)
    + sumBy (fun p => p.retencion) (confirmados f.pagos)
    + sumBy (fun p => p.nota) (confirmados f.pagos)

/-- `Factura.total_aplicado = total_pagado + total_descuentos`. -/
def total_aplicado (f : Factura) : Int :=
  total_pagado f + total_descuentos f

/-- `Factura.saldo_pendiente = valor_total - total_aplicado`. -/
def saldo_pendiente (f : Factura) : Int :=
  f.valor_total - total_aplicado f

/-- `Factura.esta_vencida`: `timezone.now().date() > fecha_vencimiento`
and the stored status is one of `pendiente`, `parcial`, `vencida`. -/
def esta_vencida (today : Int) (f : Factura) : Bool :=
  decide (f.fecha_vencimiento < today ∧
    (f.estado = EstadoFactura.pendiente ∨ f.estado = EstadoFactura.parcial ∨
      f.estado = EstadoFactura.vencida))

/-- The status value computed by the body of `Factura.actualizar_estado`
(before the conditional save).  `esta_vencida` is read while `self.estado`
still holds the previous status, exactly as in the source. -/
def nuevoEstado (today : Int) (f : Factura) : EstadoFactura :=
  if saldo_pendiente f ≤ 0 then EstadoFactura.pagada
  else if 0 < total_pagado f then
    (if esta_vencida today f then EstadoFactura.vencida else EstadoFactura.parcial)
  else
    (if esta_vencida today f then EstadoFactura.vencida else EstadoFactura.pendiente)

/-- `Factura.actualizar_estado`: sets `estado` to the computed value and
reports whether a persistence write (`save(update_fields=['estado'])`)
occurred, i.e. whether the status changed. -/
def actualizar_estado (today : Int) (f : Factura) : Factura × Bool :=
  let e := nuevoEstado today f
  ({ f with estado := e }, decide (f.estado ≠ e))

/-- Selection predicate of `Factura.actualizar_estados_vencidas`:
`fecha_vencimiento__lt=today`, `estado__in=['pendiente','parcial']`,
`.exclude(estado='vencida')`. -/
def sweepSeleccionada (today : Int) (f : Factura) : Bool :=
  decide (f.fecha_vencimiento < today ∧
    (f.estado = EstadoFactura.pendiente ∨ f.estado = EstadoFactura.parcial) ∧
    f.estado ≠ EstadoFactura.vencida)

/-- Per-invoice effect of the bulk sweep: selected invoices get
`actualizar_estado`, the rest are untouched. -/
def sweepStep (today : Int) (f : Factura) : Factura :=
  if sweepSeleccionada today f then (actualizar_estado today f).1 else f

/-- `Factura.actualizar_estados_vencidas` over a table of invoices: each
selected invoice gets `actualizar_estado`; the counter increments once per
selected invoice.  The queryset is evaluated before the updates, so the
per-row updates do not alter the iteration set. -/
def actualizar_estados_vencidas (today : Int) (fs : List Factura) :
    List Factura × Nat :=
  (fs.map (sweepStep today), (fs.filter (sweepSeleccionada today)).length)

/-- The validation errors `Pago.clean` can raise, in source order. -/
inductive CleanError
  | campoNegativo (campo : String)
  | fechaFutura
  | totalNoPositivo
  | icaSoloFE
  | icaYaAplicado
  | retencionYaAplicada
  | excedeSaldo (excede : Int)
  deriving DecidableEq, Repr

/-- `factura.pagos.exclude(pk=self.pk).filter(estado='confirmado')`:
the other already-persisted confirmed payments of the invoice. -/
def otrosPagosConfirmados (f : Factura) (p : Pago) : List Pago :=
  confirmados (f.pagos.filter (fun q => decide (q.id ≠ p.id)))

/-- `aplicado_existente` in `Pago.clean`: per-field sums over the other
confirmed payments (`total_pagado_existente + total_descuentos_existentes`). -/
def aplicadoExistente (f : Factura) (p : Pago) : Int :=
  sumBy (fun q => q.valor_pagado) (otrosPagosConfirmados f p)
    + (sumBy (fun q => q.descuento) (otrosPagosConfirmados f p)
      + sumBy (fun q => q.ica) (otrosPagosConfirmados f p)
      + sumBy (fun q => q.retencion) (otrosPagosConfirmados f p)
      + sumBy (fun q => q.nota) (otrosPagosConfirmados f p))

/-- `Pago.clean`.  The checks appear in source order: negative discount
components, future payment date, non-positive total to apply, the FE-only
withholding rule with its once-per-invoice checks, and finally — only when
the payment is being saved as `confirmado` — the balance ceiling
(`saldo_actual` in the source is `factura.valor_total`).  The `factura`
foreign key is required at this interface, so the `getattr(self, 'factura',
None)` guards are always taken. -/
def clean (today : Int) (f : Factura) (p : Pago) : Except CleanError Unit :=
  if p.descuento < 0 then .error (.campoNegativo "descuento")
  else if p.ica < 0 then .error (.campoNegativo "ica")
  else if p.retencion < 0 then .error (.campoNegativo "retencion")
  else if p.nota < 0 then .error (.campoNegativo "nota")
  else if today < p.fecha_pago then .error .fechaFutura
  else if aplicado p ≤ 0 then .error .totalNoPositivo
  else if (0 < p.ica ∨ 0 < p.retencion) ∧ f.tipo ≠ TipoFactura.FE then
    .error .icaSoloFE
  else if 0 < p.ica ∧ (otrosPagosConfirmados f p).any (fun q => decide (0 < q.ica)) then
    .error .icaYaAplicado
  else if 0 < p.retencion ∧ (otrosPagosConfirmados f p).any (fun q => decide (0 < q.retencion)) then
    .error .retencionYaAplicada
  else if p.estado = EstadoPago.confirmado ∧
      f.valor_total < aplicadoExistente f p + aplicado p then
    .error (.excedeSaldo (aplicadoExistente f p + aplicado p - f.valor_total))
  else .ok ()

/-- `Pago.save`: run `full_clean` (here: `clean`); on success persist the
payment (the primary key is unique, so the write replaces any previous row
with the same `id`), then call `factura.actualizar_estado()` exactly when
the payment is confirmed.  Code generation (`codigo`) is omitted: it does
not affect the financial state.  Returns the resulting invoice and whether
`actualizar_estado` performed a status write. -/
def guardarPago (today : Int) (f : Factura) (p : Pago) :
    Except CleanError (Factura × Bool) :=
  match clean today f p with
  | .error e => .error e
  | .ok _ =>
    let f1 : Factura :=
      { f with pagos := f.pagos.filter (fun q => decide (q.id ≠ p.id)) ++ [p] }
    if p.estado = EstadoPago.confirmado then .ok (actualizar_estado today f1)
    else .ok (f1, false)

/-- `Pago.delete`: remove the payment row, then always call
`factura.actualizar_estado()`. -/
def eliminarPago (today : Int) (f : Factura) (p : Pago) : Factura × Bool :=
  actualizar_estado today
    { f with pagos := f.pagos.filter (fun q => decide (q.id ≠ p.id)) }

/-- The amount fields received by `PagoCreateSerializer.validate`,
normalised with `Decimal(attrs.get(...) or 0)`. -/
structure PagoAttrs where
  valor_pagado : Int
  descuento : Int
  retencion : Int
  ica : Int
  nota : Int
  deriving DecidableEq, Repr

/-- The validation errors `PagoCreateSerializer.validate` can raise. -/
inductive CreateError
  | campoNegativo (campo : String)
  | totalNoPositivo
  | facturaNoExiste
  | facturaCancelada
  | facturaPagada
  deriving DecidableEq, Repr

/-- `PagoCreateSerializer.validate`: five non-negativity checks in source
order, the positive-total check, the invoice lookup, and the
cancelled / fully-paid invoice guards.  No balance comparison occurs here. -/
def validateCreate (attrs : PagoAttrs) (factura : Option Factura) :
    Except CreateError Unit :=
  if attrs.valor_pagado < 0 then .error (.campoNegativo "valor_pagado")
  else if attrs.descuento < 0 then .error (.campoNegativo "descuento")
  else if attrs.retencion < 0 then .error (.campoNegativo "retencion")
  else if attrs.ica < 0 then .error (.campoNegativo "ica")
  else if attrs.nota < 0 then .error (.campoNegativo "nota")
  else if attrs.valor_pagado + attrs.descuento + attrs.retencion
      + attrs.ica + attrs.nota ≤ 0 then .error .totalNoPositivo
  else
    match factura with
    | none => .error .facturaNoExiste
    | some fac =>
      if fac.estado = EstadoFactura.cancelada then .error .facturaCancelada
      else if fac.estado = EstadoFactura.pagada then .error .facturaPagada
      else .ok ()

/-! ### Auxiliary definitions used by the verification -/

/-- Modelled from the spec: the pure `determine_status` of §4.3, whose middle
branch tests `has_any_confirmed_payment`, glossed there as
`total_confirmed_applied > 0`.  Stated for comparison with the status
computation the code implements. -/
def determine_status_spec (gross total_confirmed_applied : Int)
    (is_past_due : Bool) : EstadoFactura :=
  if gross ≤ total_confirmed_applied then EstadoFactura.pagada
  else if 0 < total_confirmed_applied then
    (if is_past_due then EstadoFactura.vencida else EstadoFactura.parcial)
  else
    (if is_past_due then EstadoFactura.vencida else EstadoFactura.pendiente)

/-- The pure status function the code actually implements: the paid branch
tests the confirmed cash total (`total_pagado`), not the full applied total. -/
def determine_status_code (gross applied paid : Int) (is_past_due : Bool) :
    EstadoFactura :=
  if gross ≤ applied then EstadoFactura.pagada
  else if 0 < paid then
    (if is_past_due then EstadoFactura.vencida else EstadoFactura.parcial)
  else
    (if is_past_due then EstadoFactura.vencida else EstadoFactura.pendiente)

/-- Number of positions at which two invoice tables differ in status. -/
def cambiados (as bs : List Factura) : Nat :=
  ((as.zip bs).filter (fun ab => decide (ab.1.estado ≠ ab.2.estado))).length

/-- Consistency of an invoice over confirmed-only data: every confirmed
payment applies a positive amount (each one passed `clean` when saved) and
the outstanding balance is non-negative. -/
def FacturaConsistente (f : Factura) : Prop :=
  (∀ p ∈ confirmados f.pagos, 0 < aplicado p) ∧ 0 ≤ saldo_pendiente f

/-! ### Concrete fixtures -/

/-- A confirmed pure-cash payment of `v`. -/
def pagoCash (v : Int) : Pago :=
  ⟨1, v, 0, 0, 0, 0, 0, EstadoPago.confirmado⟩

/-- Invoice of gross total `1000`, due on day `1` (tomorrow relative to
`today = 0`), with the given payments. -/
def facturaMilPendiente (ps : List Pago) : Factura :=
  ⟨1000, 1, TipoFactura.FE, EstadoFactura.pendiente, ps⟩

/-- A confirmed payment applying `400` purely as a discount (no cash). -/
def pagoDescuento400 : Pago :=
  ⟨1, 0, 400, 0, 0, 0, 0, EstadoPago.confirmado⟩

/-- Consistent invoice with one confirmed cash payment of `200` out of `500`. -/
def fC2 : Factura :=
  ⟨500, 10, TipoFactura.FE, EstadoFactura.parcial,
    [⟨1, 200, 0, 0, 0, 0, 0, EstadoPago.confirmado⟩]⟩

/-- The confirmed payment stored on `fC2`. -/
def pC2 : Pago :=
  ⟨1, 200, 0, 0, 0, 0, 0, EstadoPago.confirmado⟩

/-- Remission-type invoice of `1000` fully covered by one confirmed payment. -/
def fC3 : Factura :=
  ⟨1000, 10, TipoFactura.R, EstadoFactura.pagada,
    [⟨1, 1000, 0, 0, 0, 0, 0, EstadoPago.confirmado⟩]⟩

/-- A further confirmed payment carrying only `ica = 30`. -/
def pC3ica : Pago :=
  ⟨2, 0, 0, 30, 0, 0, 0, EstadoPago.confirmado⟩

/-- Electronic invoice of `1000` fully covered by one confirmed payment. -/
def fC3full : Factura :=
  ⟨1000, 10, TipoFactura.FE, EstadoFactura.pagada,
    [⟨1, 1000, 0, 0, 0, 0, 0, EstadoPago.confirmado⟩]⟩

/-- A further confirmed cash payment of `50`. -/
def pC3w : Pago :=
  ⟨2, 50, 0, 0, 0, 0, 0, EstadoPago.confirmado⟩

/-- Cancelled, past-due (relative to `today = 1`) invoice with open balance. -/
def fC4 : Factura :=
  ⟨1000, 0, TipoFactura.FE, EstadoFactura.cancelada, []⟩

/-- Pending invoice not yet due relative to `today = 0`. -/
def fC4w : Factura :=
  ⟨1000, 5, TipoFactura.FE, EstadoFactura.pendiente, []⟩

/-- Cancelled invoice, not yet due relative to `today = 0`, open balance. -/
def fC5 : Factura :=
  ⟨1000, 5, TipoFactura.FE, EstadoFactura.cancelada, []⟩

/-- Confirmed payment carrying the local tax withholding `ica = 50`. -/
def pC6ica : Pago :=
  ⟨1, 0, 0, 50, 0, 0, 0, EstadoPago.confirmado⟩

/-- Electronic invoice holding the confirmed withholding payment `pC6ica`. -/
def fC6 : Factura :=
  ⟨1000, 10, TipoFactura.FE, EstadoFactura.parcial, [pC6ica]⟩

/-- Second payment attempting `ica = 30` on the same invoice. -/
def pC6ica2 : Pago :=
  ⟨2, 0, 0, 30, 0, 0, 0, EstadoPago.confirmado⟩

/-- Second payment with zero withholding and `descuento = 30`. -/
def pC6desc : Pago :=
  ⟨2, 0, 30, 0, 0, 0, 0, EstadoPago.confirmado⟩

/-- Remission-type invoice with no payments. -/
def fC6R : Factura :=
  ⟨1000, 10, TipoFactura.R, EstadoFactura.pendiente, []⟩

/-- Payment carrying `ica = 30` aimed at the remission-type invoice. -/
def pC6Rica : Pago :=
  ⟨1, 0, 0, 30, 0, 0, 0, EstadoPago.registrado⟩

/-- Registered payment with a negative `valor_pagado` compensated by a
discount, so the five components sum to `50 > 0`. -/
def pC7neg : Pago :=
  ⟨1, -50, 100, 0, 0, 0, 0, EstadoPago.registrado⟩

/-- Plain pending electronic invoice with no payments. -/
def fC7 : Factura :=
  ⟨1000, 10, TipoFactura.FE, EstadoFactura.pendiente, []⟩

/-- Payment with all five amount components equal to zero. -/
def pC7zero : Pago :=
  ⟨1, 0, 0, 0, 0, 0, 0, EstadoPago.registrado⟩

/-- Payment with a negative discount component. -/
def pC7negdesc : Pago :=
  ⟨1, 10, -5, 0, 0, 0, 0, EstadoPago.registrado⟩

/-- Serializer attributes with all five amount components equal to zero. -/
def attrsC7zero : PagoAttrs :=
  ⟨0, 0, 0, 0, 0⟩

/-- Invoice of gross `100` already fully covered by a confirmed payment. -/
def fW9 : Factura :=
  ⟨100, 10, TipoFactura.FE, EstadoFactura.pagada,
    [⟨1, 100, 0, 0, 0, 0, 0, EstadoPago.confirmado⟩]⟩

/-- Registered payment of `500`, far beyond the `0` outstanding balance. -/
def pW9 : Pago :=
  ⟨2, 500, 0, 0, 0, 0, 0, EstadoPago.registrado⟩

/-- Valid serializer attributes: cash `500`, no discount components. -/
def attrsW9 : PagoAttrs :=
  ⟨500, 0, 0, 0, 0⟩

/-- Valid serializer attributes: cash `10`. -/
def attrsW10 : PagoAttrs :=
  ⟨10, 0, 0, 0, 0⟩

/-- Cancelled invoice targeted by a registration attempt. -/
def fW10 : Factura :=
  ⟨1000, 10, TipoFactura.FE, EstadoFactura.cancelada, []⟩

/-! ### Structural lemmas about sums of payment components -/

theorem sumBy_append (g : Pago → Int) (xs ys : List Pago) :
    sumBy g (xs ++ ys) = sumBy g xs + sumBy g ys := by
  simp [sumBy]

theorem confirmados_append (xs ys : List Pago) :
    confirmados (xs ++ ys) = confirmados xs ++ confirmados ys := by
  simp [confirmados]

/-- The five per-field sums add up to the sum of per-payment applied totals. -/
theorem sumBy_aplicado (ps : List Pago) :
    sumBy aplicado ps =
      sumBy (fun p => p.valor_pagado) ps + (sumBy (fun p => p.descuento) ps
        + sumBy (fun p => p.ica) ps + sumBy (fun p => p.retencion) ps
        + sumBy (fun p => p.nota) ps) := by
  induction ps with
  | nil => rfl
  | cons p tl ih =>
    simp only [sumBy, List.map_cons, List.sum_cons] at ih ⊢
    simp only [aplicado]
    omega

/-- `total_aplicado` is the sum of `aplicado` over confirmed payments. -/
theorem total_aplicado_eq (f : Factura) :
    total_aplicado f = sumBy aplicado (confirmados f.pagos) := by
  unfold total_aplicado total_pagado total_descuentos
  rw [sumBy_aplicado]

/-- `aplicado_existente` of `Pago.clean` is the sum of `aplicado` over the
other confirmed payments. -/
theorem aplicadoExistente_eq (f : Factura) (p : Pago) :
    aplicadoExistente f p = sumBy aplicado (otrosPagosConfirmados f p) := by
  unfold aplicadoExistente
  rw [sumBy_aplicado]

theorem mem_confirmados {p : Pago} {ps : List Pago} :
    p ∈ confirmados ps ↔ p ∈ ps ∧ p.estado = EstadoPago.confirmado := by
  simp [confirmados, List.mem_filter, esConfirmado]

/-- Filtering out rows cannot increase the confirmed applied sum, as long as
every confirmed payment applies a non-negative amount. -/
theorem sumBy_filter_le (q : Pago → Bool) (ps : List Pago)
    (h : ∀ p ∈ confirmados ps, 0 ≤ aplicado p) :
    sumBy aplicado (confirmados (ps.filter q)) ≤ sumBy aplicado (confirmados ps) := by
  have hsub : List.Sublist (confirmados (ps.filter q)) (confirmados ps) :=
    List.Sublist.filter esConfirmado (List.filter_sublist ps)
  have hmap := List.Sublist.map aplicado hsub
  exact List.Sublist.sum_le_sum hmap (by
    intro a ha
    rcases List.mem_map.mp ha with ⟨r, hr, rfl⟩
    exact h r hr)

/-! ### Structural lemmas about `actualizar_estado` -/

theorem pagos_set_estado (f : Factura) (e : EstadoFactura) :
    ({ f with estado := e } : Factura).pagos = f.pagos := rfl

theorem saldo_set_estado (f : Factura) (e : EstadoFactura) :
    saldo_pendiente { f with estado := e } = saldo_pendiente f := rfl

theorem total_pagado_set_estado (f : Factura) (e : EstadoFactura) :
    total_pagado { f with estado := e } = total_pagado f := rfl

theorem actualizar_estado_fst (today : Int) (f : Factura) :
    (actualizar_estado today f).1 = { f with estado := nuevoEstado today f } := rfl

theorem actualizar_estado_estado (today : Int) (f : Factura) :
    ((actualizar_estado today f).1).estado = nuevoEstado today f := rfl

/-! ### Characterisation of `Pago.clean` -/

set_option maxHeartbeats 1600000 in
/-- `clean` succeeds exactly when every check of the source if-chain passes. -/
theorem clean_ok_iff (today : Int) (f : Factura) (p : Pago) :
    clean today f p = Except.ok () ↔
      (¬ p.descuento < 0 ∧ ¬ p.ica < 0 ∧ ¬ p.retencion < 0 ∧ ¬ p.nota < 0 ∧
        ¬ today < p.fecha_pago ∧ ¬ aplicado p ≤ 0 ∧
        ¬ ((0 < p.ica ∨ 0 < p.retencion) ∧ f.tipo ≠ TipoFactura.FE) ∧
        ¬ (0 < p.ica ∧
            (otrosPagosConfirmados f p).any (fun q => decide (0 < q.ica))) ∧
        ¬ (0 < p.retencion ∧
            (otrosPagosConfirmados f p).any (fun q => decide (0 < q.retencion))) ∧
        ¬ (p.estado = EstadoPago.confirmado ∧
            f.valor_total < aplicadoExistente f p + aplicado p)) := by
  unfold clean
  split_ifs with h1 h2 h3 h4 h5 h6 h7 h8 h9 h10 <;>
    first
      | exact iff_of_true rfl ⟨h1, h2, h3, h4, h5, h6, h7, h8, h9, h10⟩
      | exact iff_of_false (by simp) (by tauto)

/-- When every earlier check passes, a confirmed over-ceiling payment is
rejected with the balance error carrying the excess amount. -/
theorem clean_excede (today : Int) (f : Factura) (p : Pago)
    (h1 : ¬ p.descuento < 0) (h2 : ¬ p.ica < 0) (h3 : ¬ p.retencion < 0)
    (h4 : ¬ p.nota < 0) (h5 : ¬ today < p.fecha_pago) (h6 : ¬ aplicado p ≤ 0)
    (h7 : ¬ ((0 < p.ica ∨ 0 < p.retencion) ∧ f.tipo ≠ TipoFactura.FE))
    (h8 : ¬ (0 < p.ica ∧
        (otrosPagosConfirmados f p).any (fun q => decide (0 < q.ica))))
    (h9 : ¬ (0 < p.retencion ∧
        (otrosPagosConfirmados f p).any (fun q => decide (0 < q.retencion))))
    (hconf : p.estado = EstadoPago.confirmado)
    (hover : f.valor_total < aplicadoExistente f p + aplicado p) :
    clean today f p =
      Except.error (CleanError.excedeSaldo
        (aplicadoExistente f p + aplicado p - f.valor_total)) := by
  unfold clean
  split_ifs with g1 g2 g3 g4 g5 g6 g7 g8 g9 g10 <;> simp_all

/-! ### Fixpoint lemmas for `nuevoEstado` -/

/-- Recomputing from a state in `{pendiente, parcial, vencida}`, or with a
settled balance, or before the due date, reaches a fixpoint in one step. -/
theorem nuevoEstado_idem (today : Int) (f : Factura)
    (h : f.estado = EstadoFactura.pendiente ∨ f.estado = EstadoFactura.parcial ∨
      f.estado = EstadoFactura.vencida ∨ saldo_pendiente f ≤ 0 ∨
      ¬ f.fecha_vencimiento < today) :
    nuevoEstado today { f with estado := nuevoEstado today f } =
      nuevoEstado today f := by
  by_cases h0 : saldo_pendiente f ≤ 0
  · have : nuevoEstado today f = EstadoFactura.pagada := by
      unfold nuevoEstado
      simp [h0]
    rw [this]
    unfold nuevoEstado
    rw [saldo_set_estado]
    simp [h0, this]
  · by_cases hv : f.fecha_vencimiento < today
    · have hst : f.estado = EstadoFactura.pendiente ∨ f.estado = EstadoFactura.parcial ∨
          f.estado = EstadoFactura.vencida := by tauto
      have hev : esta_vencida today f = true := by
        unfold esta_vencida
        simp [hv, hst]
      have : nuevoEstado today f = EstadoFactura.vencida := by
        unfold nuevoEstado
        simp [h0, hev]
      rw [this]
      have hev2 : esta_vencida today { f with estado := EstadoFactura.vencida } = true := by
        unfold esta_vencida
        simp [hv]
      unfold nuevoEstado
      rw [saldo_set_estado, total_pagado_set_estado]
      simp [h0, hev2]
    · have hev : esta_vencida today f = false := by
        unfold esta_vencida
        simp [hv]
      have hev2 : ∀ e, esta_vencida today { f with estado := e } = false := by
        intro e
        unfold esta_vencida
        simp [hv]
      unfold nuevoEstado
      rw [saldo_set_estado, total_pagado_set_estado, hev, hev2]

/-! ### Characterisation of `PagoCreateSerializer.validate` -/

/-- `validateCreate` on an existing invoice succeeds exactly when the five
components are non-negative, the total is positive, and the invoice is
neither cancelled nor fully paid. -/
theorem validateCreate_some_ok_iff (attrs : PagoAttrs) (f : Factura) :
    validateCreate attrs (some f) = Except.ok () ↔
      (¬ attrs.valor_pagado < 0 ∧ ¬ attrs.descuento < 0 ∧ ¬ attrs.retencion < 0 ∧
        ¬ attrs.ica < 0 ∧ ¬ attrs.nota < 0 ∧
        ¬ (attrs.valor_pagado + attrs.descuento + attrs.retencion
            + attrs.ica + attrs.nota ≤ 0) ∧
        ¬ f.estado = EstadoFactura.cancelada ∧
        ¬ f.estado = EstadoFactura.pagada) := by
  show (if attrs.valor_pagado < 0 then
      (Except.error (CreateError.campoNegativo "valor_pagado") : Except CreateError Unit)
    else if attrs.descuento < 0 then .error (.campoNegativo "descuento")
    else if attrs.retencion < 0 then .error (.campoNegativo "retencion")
    else if attrs.ica < 0 then .error (.campoNegativo "ica")
    else if attrs.nota < 0 then .error (.campoNegativo "nota")
    else if attrs.valor_pagado + attrs.descuento + attrs.retencion
        + attrs.ica + attrs.nota ≤ 0 then .error .totalNoPositivo
    else if f.estado = EstadoFactura.cancelada then .error .facturaCancelada
    else if f.estado = EstadoFactura.pagada then .error .facturaPagada
    else .ok ()) = Except.ok () ↔ _
  split_ifs with g1 g2 g3 g4 g5 g6 g7 g8 <;>
    first
      | exact iff_of_true rfl ⟨g1, g2, g3, g4, g5, g6, g7, g8⟩
      | exact iff_of_false (by simp) (by tauto)

/-! ### Consistency preservation -/

theorem consistente_set_estado (f : Factura) (e : EstadoFactura) :
    FacturaConsistente { f with estado := e } ↔ FacturaConsistente f :=
  Iff.rfl

/-- Removing payment rows keeps an invoice consistent. -/
theorem consistente_filter (f : Factura) (q : Pago → Bool)
    (h : FacturaConsistente f) :
    FacturaConsistente { f with pagos := f.pagos.filter q } := by
  obtain ⟨hpos, hsaldo⟩ := h
  constructor
  · intro r hr
    rw [mem_confirmados] at hr
    exact hpos r (mem_confirmados.mpr ⟨(List.mem_filter.mp hr.1).1, hr.2⟩)
  · have hle : sumBy aplicado (confirmados (f.pagos.filter q)) ≤
        sumBy aplicado (confirmados f.pagos) :=
      sumBy_filter_le q f.pagos (fun p hp => le_of_lt (hpos p hp))
    have hs : saldo_pendiente f = f.valor_total - sumBy aplicado (confirmados f.pagos) := by
      unfold saldo_pendiente
      rw [total_aplicado_eq]
    show 0 ≤ f.valor_total - total_aplicado { f with pagos := f.pagos.filter q }
    rw [total_aplicado_eq]
    show 0 ≤ f.valor_total - sumBy aplicado (confirmados (f.pagos.filter q))
    omega

/-- Writing a payment row that passed `clean` keeps the invoice consistent:
this is the heart of the never-negative-balance invariant. -/
theorem consistente_insert (today : Int) (f : Factura) (p : Pago)
    (hclean : clean today f p = Except.ok ())
    (h : FacturaConsistente f) :
    FacturaConsistente
      { f with pagos := f.pagos.filter (fun q => decide (q.id ≠ p.id)) ++ [p] } := by
  obtain ⟨hpos, hsaldo⟩ := h
  obtain ⟨-, -, -, -, -, h6, -, -, -, h10⟩ := (clean_ok_iff today f p).mp hclean
  have happ : 0 < aplicado p := by omega
  have hs : saldo_pendiente f = f.valor_total - sumBy aplicado (confirmados f.pagos) := by
    unfold saldo_pendiente
    rw [total_aplicado_eq]
  constructor
  · intro r hr
    rw [show ({ f with pagos := f.pagos.filter (fun q => decide (q.id ≠ p.id)) ++ [p] } :
        Factura).pagos = f.pagos.filter (fun q => decide (q.id ≠ p.id)) ++ [p] from rfl,
      confirmados_append] at hr
    rcases List.mem_append.mp hr with hr | hr
    · rw [mem_confirmados] at hr
      exact hpos r (mem_confirmados.mpr ⟨(List.mem_filter.mp hr.1).1, hr.2⟩)
    · rw [mem_confirmados] at hr
      rw [List.mem_singleton.mp hr.1]
      exact happ
  · have hcut : sumBy aplicado (otrosPagosConfirmados f p) ≤
        sumBy aplicado (confirmados f.pagos) :=
      sumBy_filter_le _ f.pagos (fun r hrm => le_of_lt (hpos r hrm))
    show 0 ≤ f.valor_total -
      total_aplicado { f with pagos := f.pagos.filter (fun q => decide (q.id ≠ p.id)) ++ [p] }
    rw [total_aplicado_eq]
    show 0 ≤ f.valor_total -
      sumBy aplicado (confirmados (f.pagos.filter (fun q => decide (q.id ≠ p.id)) ++ [p]))
    rw [confirmados_append, sumBy_append]
    have hotros : confirmados (f.pagos.filter (fun q => decide (q.id ≠ p.id))) =
        otrosPagosConfirmados f p := rfl
    rw [hotros]
    by_cases hpc : p.estado = EstadoPago.confirmado
    · have hsing : sumBy aplicado (confirmados [p]) = aplicado p := by
        simp [confirmados, esConfirmado, hpc, sumBy]
      have hover : aplicadoExistente f p + aplicado p ≤ f.valor_total := by
        by_contra hcon
        exact h10 ⟨hpc, by omega⟩
      rw [hsing]
      rw [aplicadoExistente_eq] at hover
      omega
    · have hsing : sumBy aplicado (confirmados [p]) = 0 := by
        simp [confirmados, esConfirmado, hpc, sumBy]
      rw [hsing]
      omega

/-- A swept (selected) invoice always lands on `pagada` or `vencida`, and its
status always changes. -/
theorem nuevoEstado_of_seleccionada (today : Int) (f : Factura)
    (h : sweepSeleccionada today f = true) :
    (nuevoEstado today f = EstadoFactura.pagada ∨
      nuevoEstado today f = EstadoFactura.vencida) ∧
      nuevoEstado today f ≠ f.estado := by
  have hsel := of_decide_eq_true h
  obtain ⟨hv, hst, -⟩ := hsel
  have hev : esta_vencida today f = true := by
    unfold esta_vencida
    rcases hst with hst | hst <;> simp [hv, hst]
  constructor
  · unfold nuevoEstado
    by_cases h0 : saldo_pendiente f ≤ 0 <;> simp [h0, hev]
  · unfold nuevoEstado
    by_cases h0 : saldo_pendiente f ≤ 0 <;>
      rcases hst with hst | hst <;> simp [h0, hev, hst]

/-- After one sweep step an invoice is never selected again. -/
theorem sweepStep_not_seleccionada (today : Int) (f : Factura) :
    sweepSeleccionada today (sweepStep today f) = false := by
  unfold sweepStep
  by_cases hsel : sweepSeleccionada today f
  · rw [if_pos hsel]
    obtain ⟨hne, -⟩ := nuevoEstado_of_seleccionada today f hsel
    rw [actualizar_estado_fst]
    unfold sweepSeleccionada
    rcases hne with hne | hne <;> simp [hne]
  · rw [if_neg hsel]
    exact eq_false_of_ne_true hsel

/-! ### Claim C1 — status recomputation versus the spec's pure function -/

/-- Claim C1 fails on the code: on an invoice of gross total `1000`, due
tomorrow, whose only confirmed payment applies `400` purely as a discount,
the total confirmed applied is `400`, so the spec's `determine_status`
yields `parcial`, but `actualizar_estado` yields `pendiente` because its
middle branch tests the confirmed cash total, which is `0`. -/
theorem c1_counterexample :
    total_aplicado (facturaMilPendiente [pagoDescuento400]) = 400 ∧
    esta_vencida 0 (facturaMilPendiente [pagoDescuento400]) = false ∧
    determine_status_spec (facturaMilPendiente [pagoDescuento400]).valor_total
      (total_aplicado (facturaMilPendiente [pagoDescuento400]))
      (esta_vencida 0 (facturaMilPendiente [pagoDescuento400])) =
      EstadoFactura.parcial ∧
    ((actualizar_estado 0 (facturaMilPendiente [pagoDescuento400])).1).estado =
      EstadoFactura.pendiente := by
  refine ⟨by decide, by decide, by decide, by decide⟩

/-- Claim C1 (amended): `actualizar_estado` sets the status exactly as the
pure function of (gross total, total confirmed applied, total confirmed
cash paid, past-due flag) whose middle branch tests the confirmed cash
total `total_pagado`, not the full applied total; the concrete rows with
cash payments (gross `1000`, due tomorrow, confirmed cash `0`, `400`,
`1000`) yield `pendiente`, `parcial`, `pagada`. -/
theorem c1_status_engine :
    (∀ (today : Int) (f : Factura),
      ((actualizar_estado today f).1).estado =
        determine_status_code f.valor_total (total_aplicado f) (total_pagado f)
          (esta_vencida today f)) ∧
    ((actualizar_estado 0 (facturaMilPendiente [])).1).estado =
      EstadoFactura.pendiente ∧
    ((actualizar_estado 0 (facturaMilPendiente [pagoCash 400])).1).estado =
      EstadoFactura.parcial ∧
    ((actualizar_estado 0 (facturaMilPendiente [pagoCash 1000])).1).estado =
      EstadoFactura.pagada := by
  refine ⟨?_, by decide, by decide, by decide⟩
  intro today f
  rw [actualizar_estado_estado]
  unfold nuevoEstado determine_status_code
  by_cases h0 : saldo_pendiente f ≤ 0
  · have hge : f.valor_total ≤ total_aplicado f := by
      unfold saldo_pendiente at h0
      omega
    simp [h0, hge]
  · have hge : ¬ f.valor_total ≤ total_aplicado f := by
      unfold saldo_pendiente at h0
      omega
    simp [h0, hge]

/-! ### Claim C4 — idempotence of the status recomputation -/

/-- Claim C4 fails on the code: on a cancelled, past-due invoice with an
open balance, the first recomputation moves the status to `pendiente`
(`esta_vencida` is `false` on a cancelled invoice), and the second — now
reading `pendiente` — moves it again to `vencida`, so the two calls return
different statuses and the second call does perform a write. -/
theorem c4_counterexample :
    ((actualizar_estado 1 fC4).1).estado = EstadoFactura.pendiente ∧
    ((actualizar_estado 1 ((actualizar_estado 1 fC4).1)).1).estado =
      EstadoFactura.vencida ∧
    (actualizar_estado 1 ((actualizar_estado 1 fC4).1)).2 = true := by
  refine ⟨by decide, by decide, by decide⟩

/-- Claim C4 (amended): recomputing twice in a row with no intervening
writes and no date change gives the same status and performs no write on
the second call, provided the invoice starts in one of the recomputable
states `pendiente`, `parcial`, `vencida`, or its balance is settled, or it
is not yet past due.  From the terminal states `pagada` / `cancelada` with
an open balance on a past-due invoice the recomputation is not idempotent
(see the counterexample). -/
theorem c4_idempotent (today : Int) (f : Factura)
    (h : f.estado = EstadoFactura.pendiente ∨ f.estado = EstadoFactura.parcial ∨
      f.estado = EstadoFactura.vencida ∨ saldo_pendiente f ≤ 0 ∨
      ¬ f.fecha_vencimiento < today) :
    ((actualizar_estado today ((actualizar_estado today f).1)).1).estado =
      ((actualizar_estado today f).1).estado ∧
    (actualizar_estado today ((actualizar_estado today f).1)).2 = false := by
  have hfix := nuevoEstado_idem today f h
  constructor
  · rw [actualizar_estado_estado, actualizar_estado_estado, actualizar_estado_fst, hfix]
  · show decide (((actualizar_estado today f).1).estado ≠
      nuevoEstado today ((actualizar_estado today f).1)) = false
    rw [actualizar_estado_fst, hfix]
    simp

/-- Witness for `c4_idempotent` at a concrete pending invoice. -/
theorem c4_idempotent_witness :
    ((actualizar_estado 0 ((actualizar_estado 0 fC4w).1)).1).estado =
      ((actualizar_estado 0 fC4w).1).estado ∧
    (actualizar_estado 0 ((actualizar_estado 0 fC4w).1)).2 = false :=
  c4_idempotent 0 fC4w (by decide)

/-! ### Claim C5 — the terminal `cancelada` state -/

/-- Claim C5 fails on the code: `actualizar_estado` is not a no-op on a
cancelled invoice — on a cancelled invoice with an open balance it
overwrites the status with `pendiente` and performs a write. -/
theorem c5_counterexample :
    fC5.estado = EstadoFactura.cancelada ∧
    ((actualizar_estado 0 fC5).1).estado = EstadoFactura.pendiente ∧
    (actualizar_estado 0 fC5).2 = true := by
  refine ⟨by decide, by decide, by decide⟩

/-- Claim C5 (amended): the recomputation never produces `cancelada`, and
the bulk overdue sweep never selects nor modifies a cancelled invoice; but
recomputation on a cancelled invoice is not a no-op — because the computed
status is never `cancelada`, a call on a cancelled invoice always changes
the status and performs a persistence write (see the counterexample for a
concrete outcome, `pendiente`). -/
theorem c5_cancelada :
    (∀ (today : Int) (f : Factura),
      ((actualizar_estado today f).1).estado ≠ EstadoFactura.cancelada) ∧
    (∀ (today : Int) (f : Factura), f.estado = EstadoFactura.cancelada →
      ((actualizar_estado today f).1).estado ≠ f.estado ∧
        (actualizar_estado today f).2 = true) ∧
    (∀ (today : Int) (f : Factura), f.estado = EstadoFactura.cancelada →
      sweepSeleccionada today f = false ∧ sweepStep today f = f) ∧
    (∀ (today : Int) (fs : List Factura) (i : Nat) (f : Factura),
      fs[i]? = some f → f.estado = EstadoFactura.cancelada →
      ((actualizar_estados_vencidas today fs).1)[i]? = some f) := by
  have hne : ∀ (today : Int) (f : Factura),
      nuevoEstado today f ≠ EstadoFactura.cancelada := by
    intro today f
    unfold nuevoEstado
    split_ifs <;> simp
  have hstep : ∀ (today : Int) (f : Factura), f.estado = EstadoFactura.cancelada →
      sweepSeleccionada today f = false ∧ sweepStep today f = f := by
    intro today f hf
    have hsel : sweepSeleccionada today f = false := by
      unfold sweepSeleccionada
      simp [hf]
    exact ⟨hsel, by unfold sweepStep; rw [hsel]; simp⟩
  refine ⟨?_, ?_, hstep, ?_⟩
  · intro today f
    rw [actualizar_estado_estado]
    exact hne today f
  · intro today f hf
    have hch : ((actualizar_estado today f).1).estado ≠ f.estado := by
      rw [actualizar_estado_estado, hf]
      exact hne today f
    refine ⟨hch, ?_⟩
    show decide (f.estado ≠ nuevoEstado today f) = true
    rw [decide_eq_true_eq, hf]
    exact fun hc => hne today f hc.symm
  · intro today fs i f hget hf
    show (fs.map (sweepStep today))[i]? = some f
    rw [List.getElem?_map, hget, Option.map_some']
    rw [(hstep today f hf).2]

/-- Witness for `c5_cancelada` at a concrete cancelled invoice: recomputing
it changes the status and writes, and the sweep neither selects nor
modifies it. -/
theorem c5_cancelada_witness :
    (((actualizar_estado 0 fC5).1).estado ≠ fC5.estado ∧
      (actualizar_estado 0 fC5).2 = true) ∧
    (sweepSeleccionada 0 fC5 = false ∧ sweepStep 0 fC5 = fC5) :=
  ⟨c5_cancelada.2.1 0 fC5 (by decide), c5_cancelada.2.2.1 0 fC5 (by decide)⟩

/-! ### Claim C2 — outstanding balance formula and non-negativity -/

/-- Claim C2: `saldo_pendiente` equals the gross total minus the confirmed
cash sum minus the confirmed four-component discount sum (equivalently,
minus the per-payment applied totals over confirmed payments); payments in
`registrado` or `anulado` state contribute nothing; and starting from a
consistent invoice, every core operation — saving a payment (which runs
`clean`), deleting a payment, recomputing the status, and the bulk sweep —
leaves the invoice consistent, in particular with a non-negative balance. -/
theorem c2_saldo_invariant :
    (∀ f : Factura,
      saldo_pendiente f = f.valor_total - total_pagado f - total_descuentos f ∧
      saldo_pendiente f = f.valor_total - sumBy aplicado (confirmados f.pagos)) ∧
    (∀ (f : Factura) (p : Pago), p.estado ≠ EstadoPago.confirmado →
      saldo_pendiente { f with pagos := f.pagos ++ [p] } = saldo_pendiente f) ∧
    (∀ (today : Int) (f : Factura) (p : Pago) (f2 : Factura) (w : Bool),
      FacturaConsistente f → guardarPago today f p = Except.ok (f2, w) →
      FacturaConsistente f2 ∧ 0 ≤ saldo_pendiente f2) ∧
    (∀ (today : Int) (f : Factura) (p : Pago), FacturaConsistente f →
      FacturaConsistente (eliminarPago today f p).1 ∧
        0 ≤ saldo_pendiente (eliminarPago today f p).1) ∧
    (∀ (today : Int) (f : Factura), FacturaConsistente f →
      FacturaConsistente (actualizar_estado today f).1) ∧
    (∀ (today : Int) (fs : List Factura) (g : Factura),
      (∀ f ∈ fs, FacturaConsistente f) →
      g ∈ (actualizar_estados_vencidas today fs).1 → FacturaConsistente g) := by
  have hset : ∀ (f : Factura) (e : EstadoFactura), FacturaConsistente f →
      FacturaConsistente { f with estado := e } := by
    intro f e hf
    exact (consistente_set_estado f e).mpr hf
  have hact : ∀ (today : Int) (f : Factura), FacturaConsistente f →
      FacturaConsistente (actualizar_estado today f).1 := by
    intro today f hf
    rw [actualizar_estado_fst]
    exact hset f _ hf
  refine ⟨?_, ?_, ?_, ?_, hact, ?_⟩
  · intro f
    constructor
    · unfold saldo_pendiente total_aplicado
      omega
    · unfold saldo_pendiente
      rw [total_aplicado_eq]
  · intro f p hne
    show f.valor_total - total_aplicado { f with pagos := f.pagos ++ [p] } =
      f.valor_total - total_aplicado f
    rw [total_aplicado_eq, total_aplicado_eq]
    show f.valor_total - sumBy aplicado (confirmados (f.pagos ++ [p])) = _
    rw [confirmados_append]
    have : confirmados [p] = [] := by
      simp [confirmados, esConfirmado, hne]
    rw [this, sumBy_append]
    show f.valor_total - (sumBy aplicado (confirmados f.pagos) + 0) = _
    omega
  · intro today f p f2 w hf hok
    unfold guardarPago at hok
    cases hclean : clean today f p with
    | error e =>
      rw [hclean] at hok
      exact absurd hok (by simp)
    | ok u =>
      cases u
      rw [hclean] at hok
      dsimp only at hok
      have hins := consistente_insert today f p hclean hf
      have hres : FacturaConsistente f2 := by
        by_cases hpc : p.estado = EstadoPago.confirmado
        · rw [if_pos hpc] at hok
          have hx := Except.ok.inj hok
          have h2 : f2 = (actualizar_estado today
              { f with pagos := f.pagos.filter (fun q => decide (q.id ≠ p.id)) ++ [p] }).1 :=
            congrArg Prod.fst hx.symm
          rw [h2]
          exact hact today _ hins
        · rw [if_neg hpc] at hok
          have hx := Except.ok.inj hok
          have h2 : f2 =
              { f with pagos := f.pagos.filter (fun q => decide (q.id ≠ p.id)) ++ [p] } :=
            congrArg Prod.fst hx.symm
          rw [h2]
          exact hins
      exact ⟨hres, hres.2⟩
  · intro today f p hf
    have hdel : FacturaConsistente (eliminarPago today f p).1 := by
      unfold eliminarPago
      rw [actualizar_estado_fst]
      exact hset _ _ (consistente_filter f _ hf)
    exact ⟨hdel, hdel.2⟩
  · intro today fs g hall hg
    rcases List.mem_map.mp hg with ⟨f, hfmem, rfl⟩
    unfold sweepStep
    split
    · exact hact today f (hall f hfmem)
    · exact hall f hfmem

/-- Witness for `c2_saldo_invariant` at a concrete consistent invoice:
deleting its confirmed payment keeps the invoice consistent. -/
theorem c2_saldo_invariant_witness :
    FacturaConsistente (eliminarPago 0 fC2 pC2).1 ∧
      0 ≤ saldo_pendiente (eliminarPago 0 fC2 pC2).1 :=
  c2_saldo_invariant.2.2.2.1 0 fC2 pC2 (by constructor <;> decide)

/-! ### Claim C8 — the bulk overdue sweep -/

/-- Claim C8: the sweep selects exactly the invoices strictly past due with
status `pendiente` or `parcial` (the `exclude(estado='vencida')` clause is
redundant); its return value equals the number of invoices whose status
changed, because every selected invoice changes status; and a second run
immediately afterwards returns `0`. -/
theorem c8_sweep :
    (∀ (today : Int) (f : Factura),
      sweepSeleccionada today f =
        decide (f.fecha_vencimiento < today ∧
          (f.estado = EstadoFactura.pendiente ∨ f.estado = EstadoFactura.parcial))) ∧
    (∀ (today : Int) (fs : List Factura),
      (actualizar_estados_vencidas today fs).2 =
        cambiados fs (actualizar_estados_vencidas today fs).1) ∧
    (∀ (today : Int) (fs : List Factura),
      (actualizar_estados_vencidas today
        ((actualizar_estados_vencidas today fs).1)).2 = 0) := by
  refine ⟨?_, ?_, ?_⟩
  · intro today f
    unfold sweepSeleccionada
    rw [decide_eq_decide]
    constructor
    · rintro ⟨hv, hst, -⟩
      exact ⟨hv, hst⟩
    · rintro ⟨hv, hst⟩
      refine ⟨hv, hst, ?_⟩
      rcases hst with hst | hst <;> simp [hst]
  · intro today fs
    show (fs.filter (sweepSeleccionada today)).length =
      cambiados fs (fs.map (sweepStep today))
    induction fs with
    | nil => rfl
    | cons f tl ih =>
      rw [List.filter_cons, List.map_cons]
      unfold cambiados
      rw [List.zip_cons_cons, List.filter_cons]
      by_cases hsel : sweepSeleccionada today f
      · have hch : nuevoEstado today f ≠ f.estado :=
          (nuevoEstado_of_seleccionada today f hsel).2
        have hne : decide ((f, sweepStep today f).1.estado ≠
            (f, sweepStep today f).2.estado) = true := by
          unfold sweepStep
          rw [if_pos hsel, actualizar_estado_fst]
          simpa using fun hc => hch hc.symm
        rw [if_pos hsel, hne]
        simp only [if_true, List.length_cons]
        unfold cambiados at ih
        omega
      · have hid : sweepStep today f = f := by
          unfold sweepStep
          rw [if_neg hsel]
        have hne : decide ((f, sweepStep today f).1.estado ≠
            (f, sweepStep today f).2.estado) = false := by
          rw [hid]
          simp
        rw [hne]
        simp only [eq_false_of_ne_true hsel, if_false]
        unfold cambiados at ih
        exact ih
  · intro today fs
    show (((fs.map (sweepStep today)).filter (sweepSeleccionada today))).length = 0
    rw [List.length_eq_zero]
    rw [List.filter_eq_nil_iff]
    intro g hg
    rcases List.mem_map.mp hg with ⟨f, -, rfl⟩
    rw [sweepStep_not_seleccionada]
    simp

/-! ### Claim C3 — the confirmation balance ceiling -/

/-- Claim C3 fails as universally stated: on a remission-type invoice of
gross `1000` already fully covered by a confirmed payment, confirming a
further payment carrying only `ica = 30` does exceed the ceiling, yet the
reported `ValidationError` is the FE-only withholding one, not the
balance-exceeded one — the FE check fires before the balance check. -/
theorem c3_counterexample :
    fC3.valor_total < aplicadoExistente fC3 pC3ica + aplicado pC3ica ∧
    clean 0 fC3 pC3ica = Except.error CleanError.icaSoloFE := by
  refine ⟨by decide, by rfl⟩

/-- Claim C3 (amended): confirming a payment whose applied components plus
the already-confirmed applied total exceed the invoice gross total fails
with the balance-exceeded `ValidationError` reporting the excess, whenever
the payment passes the earlier component, date and withholding checks; and
on an invoice of gross `1000` with one confirmed payment of `1000`,
confirming any further payment (any positive component) never succeeds —
though the reported error may be an earlier check's. -/
theorem c3_confirmation_ceiling :
    (∀ (today : Int) (f : Factura) (p : Pago),
      p.estado = EstadoPago.confirmado →
      ¬ p.descuento < 0 → ¬ p.ica < 0 → ¬ p.retencion < 0 → ¬ p.nota < 0 →
      ¬ today < p.fecha_pago → ¬ aplicado p ≤ 0 →
      ¬ ((0 < p.ica ∨ 0 < p.retencion) ∧ f.tipo ≠ TipoFactura.FE) →
      ¬ (0 < p.ica ∧
          (otrosPagosConfirmados f p).any (fun q => decide (0 < q.ica))) →
      ¬ (0 < p.retencion ∧
          (otrosPagosConfirmados f p).any (fun q => decide (0 < q.retencion))) →
      f.valor_total < aplicadoExistente f p + aplicado p →
      clean today f p =
        Except.error (CleanError.excedeSaldo
          (aplicadoExistente f p + aplicado p - f.valor_total))) ∧
    (∀ (today : Int) (p : Pago), p.id ≠ 1 → p.estado = EstadoPago.confirmado →
      (0 < p.valor_pagado ∨ 0 < p.descuento ∨ 0 < p.ica ∨ 0 < p.retencion ∨
        0 < p.nota) →
      clean today fC3full p ≠ Except.ok ()) := by
  constructor
  · intro today f p hconf h1 h2 h3 h4 h5 h6 h7 h8 h9 hover
    exact clean_excede today f p h1 h2 h3 h4 h5 h6 h7 h8 h9 hconf hover
  · intro today p hid hconf hposc hok
    obtain ⟨-, -, -, -, -, h6, -, -, -, h10⟩ := (clean_ok_iff today fC3full p).mp hok
    have hex : aplicadoExistente fC3full p = 1000 := by
      unfold aplicadoExistente otrosPagosConfirmados fC3full confirmados esConfirmado sumBy
      simp [Ne.symm hid]
    have hvt : fC3full.valor_total = 1000 := rfl
    exact h10 ⟨hconf, by omega⟩

/-- Witness for `c3_confirmation_ceiling` at a concrete further payment of
`50` against the fully covered electronic invoice of `1000`. -/
theorem c3_confirmation_ceiling_witness :
    clean 0 fC3full pC3w =
      Except.error (CleanError.excedeSaldo
        (aplicadoExistente fC3full pC3w + aplicado pC3w - fC3full.valor_total)) ∧
    aplicadoExistente fC3full pC3w + aplicado pC3w - fC3full.valor_total = 50 :=
  ⟨c3_confirmation_ceiling.1 0 fC3full pC3w (by decide) (by decide) (by decide)
      (by decide) (by decide) (by decide) (by decide) (by decide) (by decide)
      (by decide) (by decide),
    by decide⟩

/-! ### Claim C6 — FE-only withholding and once-per-invoice uniqueness -/

/-- Claim C6: a payment carrying a nonzero `ica` or `retencion` is rejected
unless the invoice is electronic; a payment with positive `ica`
(respectively `retencion`) is rejected when another confirmed payment of
the invoice already carries that withholding; concretely, on an electronic
invoice holding a confirmed payment with `ica = 50`, a second `ica = 30`
payment is rejected with the duplicate-withholding error, while a payment
with zero withholding and `descuento = 30` passes validation. -/
theorem c6_withholding :
    (∀ (today : Int) (f : Factura) (p : Pago),
      (p.ica ≠ 0 ∨ p.retencion ≠ 0) → f.tipo ≠ TipoFactura.FE →
      clean today f p ≠ Except.ok ()) ∧
    (∀ (today : Int) (f : Factura) (p q : Pago),
      q ∈ otrosPagosConfirmados f p → 0 < q.ica → 0 < p.ica →
      clean today f p ≠ Except.ok ()) ∧
    (∀ (today : Int) (f : Factura) (p q : Pago),
      q ∈ otrosPagosConfirmados f p → 0 < q.retencion → 0 < p.retencion →
      clean today f p ≠ Except.ok ()) ∧
    clean 0 fC6 pC6ica2 = Except.error CleanError.icaYaAplicado ∧
    clean 0 fC6 pC6desc = Except.ok () := by
  refine ⟨?_, ?_, ?_, by rfl, by rfl⟩
  · intro today f p hnz htipo hok
    obtain ⟨-, h2, h3, -, -, -, h7, -⟩ := (clean_ok_iff today f p).mp hok
    refine h7 ⟨?_, htipo⟩
    omega
  · intro today f p q hq hqica hpica hok
    obtain ⟨-, -, -, -, -, -, -, h8, -⟩ := (clean_ok_iff today f p).mp hok
    refine h8 ⟨hpica, ?_⟩
    rw [List.any_eq_true]
    exact ⟨q, hq, by simpa using hqica⟩
  · intro today f p q hq hqret hpret hok
    obtain ⟨-, -, -, -, -, -, -, -, h9, -⟩ := (clean_ok_iff today f p).mp hok
    refine h9 ⟨hpret, ?_⟩
    rw [List.any_eq_true]
    exact ⟨q, hq, by simpa using hqret⟩

/-- Witness for `c6_withholding`: an `ica`-carrying payment against a
remission-type invoice is rejected. -/
theorem c6_withholding_witness :
    clean 0 fC6R pC6Rica ≠ Except.ok () :=
  c6_withholding.1 0 fC6R pC6Rica (by decide) (by decide)

/-! ### Claim C7 — component-level validation -/

/-- Claim C7 fails as stated: the model-level validation (`Pago.clean`,
which is what runs at confirmation time) does not check `valor_pagado` for
negativity — a payment with `valor_pagado = -50` and `descuento = 100`
passes `clean`, because only the four discount components are checked and
the five components sum to `50 > 0`. -/
theorem c7_counterexample :
    pC7neg.valor_pagado < 0 ∧ clean 0 fC7 pC7neg = Except.ok () := by
  refine ⟨by decide, by rfl⟩

/-- Claim C7 (amended): `Pago.clean` rejects a payment whose `descuento`,
`ica`, `retencion` or `nota` is negative, and any payment whose five
components sum to zero or less (which covers a lone negative
`valor_pagado`); the registration serializer additionally rejects a
negative value in any of the five components, `valor_pagado` included; the
all-zero payment is rejected by both with the must-apply-something error. -/
theorem c7_component_validation :
    (∀ (today : Int) (f : Factura) (p : Pago),
      (p.descuento < 0 ∨ p.ica < 0 ∨ p.retencion < 0 ∨ p.nota < 0) →
      clean today f p ≠ Except.ok ()) ∧
    (∀ (today : Int) (f : Factura) (p : Pago),
      aplicado p ≤ 0 → clean today f p ≠ Except.ok ()) ∧
    (∀ (attrs : PagoAttrs) (f : Factura),
      (attrs.valor_pagado < 0 ∨ attrs.descuento < 0 ∨ attrs.retencion < 0 ∨
        attrs.ica < 0 ∨ attrs.nota < 0) →
      validateCreate attrs (some f) ≠ Except.ok ()) ∧
    (∀ (attrs : PagoAttrs) (f : Factura),
      attrs.valor_pagado + attrs.descuento + attrs.retencion
        + attrs.ica + attrs.nota ≤ 0 →
      validateCreate attrs (some f) ≠ Except.ok ()) ∧
    clean 0 fC7 pC7zero = Except.error CleanError.totalNoPositivo ∧
    validateCreate attrsC7zero (some fC7) =
      Except.error CreateError.totalNoPositivo := by
  refine ⟨?_, ?_, ?_, ?_, by rfl, by rfl⟩
  · intro today f p hneg hok
    obtain ⟨h1, h2, h3, h4, -⟩ := (clean_ok_iff today f p).mp hok
    rcases hneg with h | h | h | h <;> omega
  · intro today f p htot hok
    obtain ⟨-, -, -, -, -, h6, -⟩ := (clean_ok_iff today f p).mp hok
    omega
  · intro attrs f hneg hok
    obtain ⟨g1, g2, g3, g4, g5, -⟩ := (validateCreate_some_ok_iff attrs f).mp hok
    rcases hneg with h | h | h | h | h <;> omega
  · intro attrs f htot hok
    obtain ⟨-, -, -, -, -, g6, -⟩ := (validateCreate_some_ok_iff attrs f).mp hok
    omega

/-- Witness for `c7_component_validation`: a negative discount is rejected. -/
theorem c7_component_validation_witness :
    clean 0 fC7 pC7negdesc ≠ Except.ok () :=
  c7_component_validation.1 0 fC7 pC7negdesc (by decide)

/-! ### Claim C9 — registration is not constrained by the balance -/

/-- Claim C9: `Pago.clean` on a payment in `registrado` state succeeds as
soon as the component-level rules hold, with no condition whatsoever on the
invoice balance (the statement imposes none); the registration serializer
likewise only checks components and the invoice's state; and the ceiling is
enforced exactly for payments saved as `confirmado`: a successful `clean`
of a confirmed payment implies the applied totals fit under the gross
total. -/
theorem c9_registration_unconstrained :
    (∀ (today : Int) (f : Factura) (p : Pago),
      p.estado = EstadoPago.registrado →
      ¬ p.descuento < 0 → ¬ p.ica < 0 → ¬ p.retencion < 0 → ¬ p.nota < 0 →
      ¬ today < p.fecha_pago → ¬ aplicado p ≤ 0 →
      ¬ ((0 < p.ica ∨ 0 < p.retencion) ∧ f.tipo ≠ TipoFactura.FE) →
      ¬ (0 < p.ica ∧
          (otrosPagosConfirmados f p).any (fun q => decide (0 < q.ica))) →
      ¬ (0 < p.retencion ∧
          (otrosPagosConfirmados f p).any (fun q => decide (0 < q.retencion))) →
      clean today f p = Except.ok ()) ∧
    (∀ (attrs : PagoAttrs) (f : Factura),
      ¬ attrs.valor_pagado < 0 → ¬ attrs.descuento < 0 → ¬ attrs.retencion < 0 →
      ¬ attrs.ica < 0 → ¬ attrs.nota < 0 →
      ¬ (attrs.valor_pagado + attrs.descuento + attrs.retencion
          + attrs.ica + attrs.nota ≤ 0) →
      ¬ f.estado = EstadoFactura.cancelada → ¬ f.estado = EstadoFactura.pagada →
      validateCreate attrs (some f) = Except.ok ()) ∧
    (∀ (today : Int) (f : Factura) (p : Pago),
      clean today f p = Except.ok () → p.estado = EstadoPago.confirmado →
      aplicadoExistente f p + aplicado p ≤ f.valor_total) := by
  refine ⟨?_, ?_, ?_⟩
  · intro today f p hreg h1 h2 h3 h4 h5 h6 h7 h8 h9
    refine (clean_ok_iff today f p).mpr ⟨h1, h2, h3, h4, h5, h6, h7, h8, h9, ?_⟩
    rintro ⟨hc, -⟩
    rw [hreg] at hc
    exact absurd hc (by decide)
  · intro attrs f g1 g2 g3 g4 g5 g6 g7 g8
    exact (validateCreate_some_ok_iff attrs f).mpr ⟨g1, g2, g3, g4, g5, g6, g7, g8⟩
  · intro today f p hok hconf
    obtain ⟨-, -, -, -, -, -, -, -, -, h10⟩ := (clean_ok_iff today f p).mp hok
    by_contra hcon
    exact h10 ⟨hconf, by omega⟩

/-- Witness for `c9_registration_unconstrained`: a registered payment of
`500` against an invoice with outstanding balance `0` passes `clean`, and
its serializer attributes pass `validateCreate` against a partial invoice. -/
theorem c9_registration_unconstrained_witness :
    saldo_pendiente fW9 < aplicado pW9 ∧ clean 0 fW9 pW9 = Except.ok () :=
  ⟨by decide,
    c9_registration_unconstrained.1 0 fW9 pW9 rfl (by decide) (by decide)
      (by decide) (by decide) (by decide) (by decide) (by decide) (by decide)
      (by decide)⟩

/-! ### Claim C10 — no registration against cancelled or paid invoices -/

/-- Claim C10: at the public payment-creation interface, any registration
attempt against an invoice in state `cancelada` or `pagada` is rejected by
`validateCreate` before the payment is created, whatever the submitted
amounts. -/
theorem c10_blocked_invoice_states :
    ∀ (attrs : PagoAttrs) (f : Factura),
      f.estado = EstadoFactura.cancelada ∨ f.estado = EstadoFactura.pagada →
      validateCreate attrs (some f) ≠ Except.ok () := by
  intro attrs f hstate hok
  obtain ⟨-, -, -, -, -, -, g7, g8⟩ := (validateCreate_some_ok_iff attrs f).mp hok
  rcases hstate with h | h
  · exact g7 h
  · exact g8 h

/-- Witness for `c10_blocked_invoice_states` at a cancelled invoice. -/
theorem c10_blocked_invoice_states_witness :
    validateCreate attrsW10 (some fW10) ≠ Except.ok () :=
  c10_blocked_invoice_states attrsW10 fW10 (Or.inl (by decide))

end DP
